import Mathlib

/-!
Shallow embedding of the SolarNetwork control toggler (sn-control-toggler-js,
version 3.0.1, lib bundle of src/main/controlToggler.ts).

JavaScript runtime values relevant to control values (number, string,
boolean, undefined) are embedded as an inductive type with the loose
equality operator restricted to that fragment. Dates are embedded as
integer timestamps, optional when the underlying field can be undefined.
Network calls are recorded as an explicit trace; the outcome of each call
is supplied by an oracle so that the asynchronous continuation chains of
the source can be evaluated as pure functions.
-/

/-- Embedding of the JavaScript values a control value can take:
number, string, boolean or undefined. -/
inductive JSVal where
  | undefined
  | num (n : Int)
  | str (s : String)
  | boolV (b : Bool)
deriving Repr, DecidableEq

/-- The numeric value of a decimal digit character. -/
def digitVal? (c : Char) : Option Nat :=
  if c = '0' then some 0
  else if c = '1' then some 1
  else if c = '2' then some 2
  else if c = '3' then some 3
  else if c = '4' then some 4
  else if c = '5' then some 5
  else if c = '6' then some 6
  else if c = '7' then some 7
  else if c = '8' then some 8
  else if c = '9' then some 9
  else none

/-- Accumulate a decimal digit list into a natural number, failing on any
non-digit character. -/
def natOfDigitsAux : List Char → Nat → Option Nat
  | [], acc => some acc
  | c :: cs, acc =>
    match digitVal? c with
    | some d => natOfDigitsAux cs (acc * 10 + d)
    | none => none

/-- Parse an optionally negated decimal integer literal. -/
def strToInt? (s : String) : Option Int :=
  match s.data with
  | [] => none
  | '-' :: cs =>
    match cs with
    | [] => none
    | _ => (natOfDigitsAux cs 0).map (fun n => -(n : Int))
  | cs => (natOfDigitsAux cs 0).map (fun n => (n : Int))

/-- JavaScript ToNumber restricted to this fragment, on the integer-literal
subset of strings (the values used by the toggler are 0, 1, "0", "1"). The
empty string converts to 0 as in JavaScript; non-numeric strings give none,
standing for NaN. -/
def JSVal.toNum : JSVal → Option Int
  | .undefined => none
  | .num n => some n
  | .str s => if s = "" then some 0 else strToInt? s
  | .boolV b => some (if b then 1 else 0)

/-- JavaScript loose equality on this fragment: undefined only equals
undefined, two strings compare literally, any other pair compares after
ToNumber conversion, with NaN unequal to everything. -/
def looseEq (a b : JSVal) : Bool :=
  match a, b with
  | .undefined, .undefined => true
  | .undefined, _ => false
  | _, .undefined => false
  | .str s, .str t => s = t
  | a, b =>
    match a.toNum, b.toNum with
    | some x, some y => x = y
    | _, _ => false

/-- JavaScript truthiness on this fragment: undefined, 0, the empty string
and false are falsy. -/
def truthy : JSVal → Bool
  | .undefined => false
  | .num n => n ≠ 0
  | .str s => s ≠ ""
  | .boolV b => b

/-- JavaScript String conversion on this fragment. -/
def jsToString : JSVal → String
  | .undefined => "undefined"
  | .num n => toString n
  | .str s => s
  | .boolV b => if b then "true" else "false"

/-- Instruction lifecycle states used by the toggler. -/
inductive InstructionState where
  | Queuing
  | Queued
  | Received
  | Executing
  | Completed
  | Declined
deriving Repr, DecidableEq

/-- Instruction states that indicate a toggle instruction is in-flight. -/
def InstructionActiveStates : List InstructionState :=
  [.Queuing, .Queued, .Received, .Executing]

/-- Instruction states that indicate a toggle instruction is completed or
declined. -/
def InstructionFinishedStates : List InstructionState :=
  [.Completed, .Declined]

/-- An instruction object: identifier, topic, creation timestamp, parsed
date (undefined when the creation date does not parse), lifecycle state and
optional parameter list of name and value pairs. The instructionState
accessor of the source is modelled by the state field directly. -/
structure Instruction where
  id : Nat
  topic : String
  created : Int
  date : Option Int
  state : InstructionState
  parameters : Option (List (String × String))
deriving Repr, DecidableEq

/-- The value of the first instruction parameter, or undefined when the
parameter array is absent. Inputs always carry a non-empty list when the
array is present, matching the data the remote API returns. -/
def Instruction.firstParamValue (i : Instruction) : JSVal :=
  match i.parameters with
  | some (p :: _) => .str p.2
  | _ => .undefined

/-- A control datum: source identifier, parsed date (undefined when the
creation date does not parse) and control value. -/
structure ControlDatum where
  sourceId : String
  date : Option Int
  val : JSVal
deriving Repr, DecidableEq

/-- The private timer field of the toggler. It starts undefined, holds a
truthy timeout handle while scheduled, and stop sets it to null. -/
inductive TimerHandle where
  | undefined
  | nullH
  | active
deriving Repr, DecidableEq

/-- The mutable state of one ControlToggler instance. The two auth builder
validity flags stand for the signingKeyValid accessors of the command auth
and the query auth. The notification callback is modelled as a pure
observer, recorded in the execution traces below. -/
structure TogglerState where
  nodeId : Nat
  controlId : String
  authSigningKeyValid : Bool
  queryAuthSigningKeyValid : Bool
  timer : TimerHandle
  lastKnownDatum : Option ControlDatum
  lastKnownInstruction : Option Instruction
  refreshMs : Nat
  pendingRefreshMs : Nat
deriving Repr, DecidableEq

namespace ControlToggler

/-- The value getter: value() with no argument returns the val property of
the last known datum, or undefined. -/
def value (s : TogglerState) : JSVal :=
  match s.lastKnownDatum with
  | some d => d.val
  | none => .undefined

/-- The first parameter value of the last known instruction, or undefined. -/
def lastKnownInstructionValue (s : TogglerState) : JSVal :=
  match s.lastKnownInstruction with
  | some i => i.firstParamValue
  | none => .undefined

/-- True when the last known instruction exists and its state is in the
active set. -/
def hasPendingStateChange (s : TogglerState) : Bool :=
  match s.lastKnownInstruction with
  | some i => decide (i.state ∈ InstructionActiveStates)
  | none => false

/-- The refresh rate to use: the pending rate while a state change is
pending, the normal rate otherwise. -/
def currentRefreshMs (s : TogglerState) : Nat :=
  if hasPendingStateChange s then s.pendingRefreshMs else s.refreshMs

/-- The value from either the control datum or the first parameter value of
an instruction, whichever is valid and more recent; undefined when both are
present, the instruction is not declined and either parsed date is
missing. -/
def mostRecentValue (controlDatum : Option ControlDatum)
    (instruction : Option Instruction) : JSVal :=
  match instruction with
  | none =>
    match controlDatum with
    | some d => d.val
    | none => .undefined
  | some instr =>
    if instr.state = .Declined then
      match controlDatum with
      | some d => d.val
      | none => .undefined
    else
      match controlDatum with
      | none => instr.firstParamValue
      | some d =>
        match d.date, instr.date with
        | some statusDate, some instructionDate =>
          if statusDate > instructionDate then d.val else instr.firstParamValue
        | _, _ => .undefined

/-- Select the active SetControlParameter instruction for the control from
a pending-instruction list: among entries whose topic matches and whose
first parameter name equals the control id, keep the one with the latest
creation timestamp, scanning left to right. -/
def getActiveInstruction (controlId : String) (data : List Instruction) :
    Option Instruction :=
  if data.isEmpty then none
  else
    data.foldl
      (fun prev curr =>
        if (curr.topic == "SetControlParameter")
            && (match curr.parameters with
                | some (p :: _) => p.1 == controlId
                | _ => false)
            && (match prev with
                | none => true
                | some pr => decide (pr.created < curr.created))
        then some curr else prev)
      none

end ControlToggler

/-- Reference merge policy taken from the words of the specification: no
command or a declined command yields the reading value; no reading yields
the command value; both present compare timestamps, with the reading
winning exactly when strictly newer. A missing timestamp never counts as
strictly newer, so the command value wins in that case. -/
def refMergeValue (reading : Option ControlDatum)
    (cmd : Option Instruction) : JSVal :=
  match cmd with
  | none =>
    match reading with
    | some r => r.val
    | none => .undefined
  | some c =>
    if c.state = .Declined then
      match reading with
      | some r => r.val
      | none => .undefined
    else
      match reading with
      | none => c.firstParamValue
      | some r =>
        if (match r.date, c.date with
            | some rd, some cd => decide (rd > cd)
            | _, _ => false)
        then r.val else c.firstParamValue

/-- Amended reference merge policy: as refMergeValue, except the timestamp
comparison of rule 3 is only taken when both dates exist, and a missing
date on either side yields undefined. -/
def refMergeValueGuarded (reading : Option ControlDatum)
    (cmd : Option Instruction) : JSVal :=
  match cmd with
  | none =>
    match reading with
    | some r => r.val
    | none => .undefined
  | some c =>
    if c.state = .Declined then
      match reading with
      | some r => r.val
      | none => .undefined
    else
      match reading with
      | none => c.firstParamValue
      | some r =>
        match r.date, c.date with
        | some rd, some cd => if rd > cd then r.val else c.firstParamValue
        | _, _ => .undefined

/-- One network request issued by the toggler, identified by endpoint and
arguments, in issue order. -/
inductive NetCall where
  | cancelInstruction (instrId : Nat) (newState : InstructionState)
  | queueInstruction (nodeId : Nat) (paramName : String) (paramValue : String)
  | mostRecentDatum (nodeId : Nat) (sourceId : String)
  | viewPendingInstructions (nodeId : Nat)
  | viewInstruction (instrId : Nat)
deriving Repr, DecidableEq

/-- The settled result of a promise returned to the direct caller. -/
inductive PromiseRes (α : Type) where
  | fulfilled (a : α)
  | rejectedP (msg : String)
deriving Repr, DecidableEq

/-- Outcomes the network gives to the calls a setValue invocation can
issue: the cancel POST and the enqueue POST. -/
structure FetchOracle where
  cancelResult : Except String Unit
  enqueueResult : Except String Instruction

/-- Everything observable about one complete setValue invocation: the
network calls issued in order, whether the enqueue was chained to run only
after the cancel fulfilled, the notification-callback invocations in order
(none stands for a no-error notification), the final cached state, the
delay of a setTimeout call made while rescheduling (none when no timer was
scheduled), and the settled result of the returned promise. -/
structure SetValueExec where
  calls : List NetCall
  enqueueAfterCancel : Bool
  notifications : List (Option String)
  finalState : TogglerState
  timerScheduled : Option Nat
  result : PromiseRes (Option Instruction)
deriving Repr

namespace ControlToggler

/-- True when the setValue path cancels the pending instruction: the last
known instruction exists, its state is Queued and its first parameter value
is not loosely equal to the desired value. -/
def cancelTriggered (s : TogglerState) (d : JSVal) : Bool :=
  match s.lastKnownInstruction with
  | some i => decide (i.state = .Queued) && !(looseEq i.firstParamValue d)
  | none => false

/-- The enqueue request a setValue invocation issues. -/
def enqueueCall (s : TogglerState) (d : JSVal) : NetCall :=
  .queueInstruction s.nodeId s.controlId (jsToString d)

/-- The fulfilled-enqueue continuation of setValue: store the instruction,
notify without error, and when the timer handle is truthy restart it at the
current refresh rate (computed after the store). A zero restart delay is
bumped to 20 by the start method. -/
def enqueueSuccess (s1 : TogglerState) (calls : List NetCall)
    (afterCancel : Bool) (instr : Instruction) : SetValueExec :=
  let s2 := { s1 with lastKnownInstruction := some instr }
  if s2.timer = .active then
    { calls := calls, enqueueAfterCancel := afterCancel,
      notifications := [none],
      finalState := { s2 with timer := .active },
      timerScheduled :=
        some (if currentRefreshMs s2 = 0 then 20 else currentRefreshMs s2),
      result := .fulfilled (some instr) }
  else
    { calls := calls, enqueueAfterCancel := afterCancel,
      notifications := [none], finalState := s2, timerScheduled := none,
      result := .fulfilled (some instr) }

/-- The setValue path of value(desiredValue) with an argument: reject
without side effects when the signing key is invalid; cancel a queued
instruction whose value differs loosely from the desired one; enqueue a new
SetControlParameter instruction when neither the cached value nor the
remaining pending value loosely equals the desired one, chaining the
enqueue after the cancel when one was issued; otherwise resolve at once
with the remaining last known instruction. -/
def setValue (s : TogglerState) (d : JSVal) (o : FetchOracle) : SetValueExec :=
  if s.authSigningKeyValid = false then
    { calls := [], enqueueAfterCancel := false, notifications := [],
      finalState := s, timerScheduled := none,
      result := .rejectedP "Valid credentials not configured" }
  else
    let currentValue := value s
    let doCancel := cancelTriggered s d
    let cancelCalls : List NetCall :=
      match s.lastKnownInstruction with
      | some i => if doCancel then [.cancelInstruction i.id .Declined] else []
      | none => []
    let s1 := if doCancel then { s with lastKnownInstruction := none } else s
    let pendingValue1 :=
      if doCancel then JSVal.undefined else lastKnownInstructionValue s
    if !(looseEq currentValue d) && !(looseEq pendingValue1 d) then
      if doCancel then
        match o.cancelResult with
        | .error e =>
          { calls := cancelCalls, enqueueAfterCancel := true,
            notifications := [some e], finalState := s1,
            timerScheduled := none, result := .rejectedP e }
        | .ok _ =>
          match o.enqueueResult with
          | .ok instr =>
            enqueueSuccess s1 (cancelCalls ++ [enqueueCall s d]) true instr
          | .error e =>
            { calls := cancelCalls ++ [enqueueCall s d],
              enqueueAfterCancel := true, notifications := [some e],
              finalState := s1, timerScheduled := none,
              result := .rejectedP e }
      else
        match o.enqueueResult with
        | .ok instr => enqueueSuccess s1 [enqueueCall s d] false instr
        | .error e =>
          { calls := [enqueueCall s d], enqueueAfterCancel := false,
            notifications := [some e], finalState := s1,
            timerScheduled := none, result := .rejectedP e }
    else
      { calls := cancelCalls, enqueueAfterCancel := false,
        notifications := [], finalState := s1, timerScheduled := none,
        result := .fulfilled s1.lastKnownInstruction }

end ControlToggler

/-- Responses the network gives to the reads an update invocation can
issue: the most-recent datum list, the pending instruction list and the
by-id instruction lookup (consulted only when that request is issued). -/
structure UpdateResponses where
  mostRecent : Except String (List ControlDatum)
  pending : Except String (List Instruction)
  byId : Except String Instruction

/-- Everything observable about one complete update invocation, with the
same reading of the fields as in SetValueExec. -/
structure UpdateExec where
  calls : List NetCall
  notifications : List (Option String)
  finalState : TogglerState
  timerScheduled : Option Nat
  result : PromiseRes JSVal
deriving Repr

namespace ControlToggler

/-- True when update also issues the by-id instruction refresh: the last
known instruction exists and its state is not in the finished set. -/
def updateByIdRequested (s : TogglerState) : Bool :=
  match s.lastKnownInstruction with
  | some i => !(decide (i.state ∈ InstructionFinishedStates))
  | none => false

/-- The first failure among the responses update waits on, in the fixed
order most-recent, pending, by-id; Promise.all settles with whichever
rejection arrives first, and the order is irrelevant to the claims. -/
def updateRespError (s : TogglerState) (resp : UpdateResponses) :
    Option String :=
  match resp.mostRecent with
  | .error e => some e
  | .ok _ =>
    match resp.pending with
    | .error e => some e
    | .ok _ =>
      if updateByIdRequested s then
        match resp.byId with
        | .error e => some e
        | .ok _ => none
      else none

/-- The freshly fetched by-id instruction, when that request was issued and
fulfilled. -/
def updateExecInstr (s : TogglerState) (resp : UpdateResponses) :
    Option Instruction :=
  if updateByIdRequested s then resp.byId.toOption else none

/-- The datum for this control found in the fulfilled most-recent list. -/
def updateFetchedDatum (s : TogglerState) (resp : UpdateResponses) :
    Option ControlDatum :=
  (resp.mostRecent.toOption.getD []).find?
    (fun e => e.sourceId == s.controlId)

/-- The active pending instruction selected from the fulfilled pending
list. -/
def updatePendingInstr (s : TogglerState) (resp : UpdateResponses) :
    Option Instruction :=
  getActiveInstruction s.controlId (resp.pending.toOption.getD [])

/-- The merged value update computes: the fetched reading against the by-id
instruction, else the selected pending instruction, else the cached last
known instruction. -/
def updateNewValue (s : TogglerState) (resp : UpdateResponses) : JSVal :=
  mostRecentValue (updateFetchedDatum s resp)
    ((updateExecInstr s resp).orElse fun _ =>
      (updatePendingInstr s resp).orElse fun _ => s.lastKnownInstruction)

/-- The tail of every update round: when the timer field is anything other
than undefined (including the null a stop call leaves behind), schedule a
new round after the current refresh rate; resolve with the value getter of
the resulting state. -/
def finishUpdate (s1 : TogglerState) (calls : List NetCall)
    (notes : List (Option String)) : UpdateExec :=
  if s1.timer = .undefined then
    { calls := calls, notifications := notes, finalState := s1,
      timerScheduled := none, result := .fulfilled (value s1) }
  else
    { calls := calls, notifications := notes,
      finalState := { s1 with timer := .active },
      timerScheduled := some (currentRefreshMs s1),
      result := .fulfilled (value s1) }

/-- The fulfilled branch of update: merge the responses, and when the
merged value differs strictly from the cached value or a by-id instruction
was fetched, replace the cached datum (forcing its val to the merged value
only when no pending instruction was selected and the merged value is
truthy), replace the cached instruction and notify without error. -/
def updateSuccess (s : TogglerState) (resp : UpdateResponses)
    (calls : List NetCall) : UpdateExec :=
  let pendingInstruction := updatePendingInstr s resp
  let mostRecentDatum := updateFetchedDatum s resp
  let newValue := updateNewValue s resp
  if newValue ≠ value s ∨ (updateExecInstr s resp).isSome then
    let datum1 :=
      match mostRecentDatum with
      | some dd =>
        if pendingInstruction = none ∧ truthy newValue then
          some { dd with val := newValue }
        else some dd
      | none => none
    let instr1 := (updateExecInstr s resp).orElse fun _ => pendingInstruction
    finishUpdate
      { s with lastKnownDatum := datum1, lastKnownInstruction := instr1 }
      calls [none]
  else
    finishUpdate s calls []

/-- One complete update invocation: reject without side effects when the
signing key is invalid; otherwise issue the reads, and on any failure log,
notify with the error and fulfill with undefined without rescheduling; on
success continue with updateSuccess. -/
def update (s : TogglerState) (resp : UpdateResponses) : UpdateExec :=
  if s.authSigningKeyValid = false then
    { calls := [], notifications := [], finalState := s,
      timerScheduled := none,
      result := .rejectedP "Valid credentials not configured" }
  else
    let calls :=
      [NetCall.mostRecentDatum s.nodeId s.controlId,
       NetCall.viewPendingInstructions s.nodeId] ++
      (match s.lastKnownInstruction with
       | some i =>
         if updateByIdRequested s then [NetCall.viewInstruction i.id] else []
       | none => [])
    match updateRespError s resp with
    | some e =>
      { calls := calls, notifications := [some e], finalState := s,
        timerScheduled := none, result := .fulfilled .undefined }
    | none => updateSuccess s resp calls

/-- The start method: when the timer field is falsy (undefined or null),
schedule an update after the given delay, 20 when the delay is absent or
zero. Returns the new state and, when a timeout was scheduled, its delay. -/
def start (s : TogglerState) (when_ : Option Nat) : TogglerState × Option Nat :=
  match s.timer with
  | .active => (s, none)
  | _ =>
    ({ s with timer := .active },
     some (match when_ with
           | some w => if w = 0 then 20 else w
           | none => 20))

/-- The stop method: when the timer field is truthy, clear the timeout and
set the field to null. -/
def stop (s : TogglerState) : TogglerState :=
  match s.timer with
  | .active => { s with timer := .nullH }
  | _ => s

end ControlToggler

/-- A queued SetControlParameter instruction requesting value 0, used as a
concrete fixture. -/
def baseInstr : Instruction :=
  { id := 77, topic := "SetControlParameter", created := 40, date := some 40,
    state := .Queued, parameters := some [("switch", "0")] }

/-- A freshly constructed toggler for control switch on node 123 with valid
credentials, used as a concrete fixture. -/
def baseState : TogglerState :=
  { nodeId := 123, controlId := "switch", authSigningKeyValid := true,
    queryAuthSigningKeyValid := true, timer := .undefined,
    lastKnownDatum := none, lastKnownInstruction := none,
    refreshMs := 20000, pendingRefreshMs := 5000 }

/-- A toggler whose cached reading has value 1 and whose cached instruction
is Completed with requested value 0 and an unparseable date, so the merged
value of the next update round is undefined. -/
def c8State : TogglerState :=
  { baseState with
    lastKnownDatum := some { sourceId := "switch", date := some 10, val := .num 1 },
    lastKnownInstruction := some
      { id := 5, topic := "SetControlParameter", created := 20, date := none,
        state := .Completed, parameters := some [("switch", "0")] } }

/-- Responses for the update round refuting claim C8: a fetched reading
with value 1 and an empty pending list. -/
def c8Responses : UpdateResponses :=
  { mostRecent := .ok [{ sourceId := "switch", date := some 10, val := .num 1 }],
    pending := .ok [], byId := .ok baseInstr }

/-- A toggler whose cached reading has value 0 and whose cached instruction
is Completed with requested value 1 and a newer date, so the merged value
of the next update round is the string 1. -/
def c8WitnessState : TogglerState :=
  { baseState with
    lastKnownDatum := some { sourceId := "switch", date := some 10, val := .num 0 },
    lastKnownInstruction := some
      { id := 6, topic := "SetControlParameter", created := 60, date := some 60,
        state := .Completed, parameters := some [("switch", "1")] } }

/-- Responses for the update round witnessing the amended claim C8: a
fetched reading with value 0 and an empty pending list. -/
def c8WitnessResponses : UpdateResponses :=
  { mostRecent := .ok [{ sourceId := "switch", date := some 10, val := .num 0 }],
    pending := .ok [], byId := .ok baseInstr }

/-- A queued SetControlParameter instruction requesting value 1. -/
def queuedOneInstr : Instruction :=
  { baseInstr with parameters := some [("switch", "1")] }

/-- A toggler whose cached instruction is Queued requesting value 1, the
fast-path situation of a repeated setValue of 1. -/
def c6State : TogglerState :=
  { baseState with lastKnownInstruction := some queuedOneInstr }

/-- A toggler whose cached reading already has value 1 while the cached
instruction is Queued requesting value 0. -/
def c5State : TogglerState :=
  { baseState with
    lastKnownDatum := some { sourceId := "switch", date := some 50, val := .num 1 },
    lastKnownInstruction := some baseInstr }

/-- A toggler whose cached reading has value 0 while the cached instruction
is Queued requesting value 0. -/
def c5WitnessState : TogglerState :=
  { baseState with
    lastKnownDatum := some { sourceId := "switch", date := some 50, val := .num 0 },
    lastKnownInstruction := some baseInstr }

/-- A network oracle where both setValue calls fulfill. -/
def okOracle : FetchOracle :=
  { cancelResult := .ok (), enqueueResult := .ok baseInstr }

/-- Update responses where every read fulfills with no data. -/
def emptyOkResponses : UpdateResponses :=
  { mostRecent := .ok [], pending := .ok [], byId := .ok baseInstr }

/-- Update responses where the most-recent read rejects. -/
def boomResponses : UpdateResponses :=
  { mostRecent := .error "boom", pending := .ok [], byId := .ok baseInstr }

/-- JavaScript loose equality never equates undefined with a defined
value. -/
theorem looseEq_undef_left (d : JSVal) (hd : d ≠ JSVal.undefined) :
    looseEq .undefined d = false := by
  cases d with
  | undefined => exact absurd rfl hd
  | num n => rfl
  | str s => rfl
  | boolV b => rfl

/-- Claim C4, counterexample: with a reading whose date is unparseable and
a queued command, the source merge returns undefined while the reference
merge of the claim returns the command value, so the two policies differ. -/
theorem c4_counterexample :
    ControlToggler.mostRecentValue
        (some { sourceId := "switch", date := none, val := JSVal.num 1 })
        (some baseInstr) = .undefined ∧
    refMergeValue
        (some { sourceId := "switch", date := none, val := JSVal.num 1 })
        (some baseInstr) = .str "0" ∧
    ControlToggler.mostRecentValue
        (some { sourceId := "switch", date := none, val := JSVal.num 1 })
        (some baseInstr) ≠
      refMergeValue
        (some { sourceId := "switch", date := none, val := JSVal.num 1 })
        (some baseInstr) := by
  decide

/-- Claim C4, amended: the merge policy of the source equals the reference
definition amended with a guard, where the timestamp comparison of rule 3
is only taken when both dates exist and a missing date on either side
yields undefined. -/
theorem c4_merge_policy_amended (reading : Option ControlDatum)
    (cmd : Option Instruction) :
    ControlToggler.mostRecentValue reading cmd =
      refMergeValueGuarded reading cmd := by
  rfl

/-- Claim C10: when both a reading and a non-declined command are present
but either parsed date is missing, the merge function returns undefined. -/
theorem c10_merge_missing_date (r : ControlDatum) (c : Instruction)
    (hstate : c.state ≠ InstructionState.Declined)
    (hdate : r.date = none ∨ c.date = none) :
    ControlToggler.mostRecentValue (some r) (some c) = .undefined := by
  obtain ⟨sid, rdate, rval⟩ := r
  obtain ⟨cid, ct, cc, cdate, cs, cp⟩ := c
  simp only [ControlToggler.mostRecentValue]
  simp only at hstate
  rcases hdate with h | h <;> simp only at h <;> subst h
  · simp [hstate]
  · cases rdate <;> simp [hstate]

/-- Claim C10, witness at a concrete reading without a date and a queued
command. -/
theorem c10_witness :
    ControlToggler.mostRecentValue
        (some { sourceId := "switch", date := none, val := JSVal.num 1 })
        (some baseInstr) = .undefined :=
  c10_merge_missing_date
    { sourceId := "switch", date := none, val := JSVal.num 1 } baseInstr
    (by decide) (Or.inl rfl)

/-- Claim C7: hasPendingStateChange holds exactly when the last known
instruction exists with a state in the active set, and currentRefreshMs
selects the pending rate exactly under that condition and the normal rate
otherwise. -/
theorem c7_currentRefreshMs (s : TogglerState) :
    (ControlToggler.hasPendingStateChange s = true ↔
      ∃ i, s.lastKnownInstruction = some i ∧
        i.state ∈ InstructionActiveStates) ∧
    ControlToggler.currentRefreshMs s =
      (if ControlToggler.hasPendingStateChange s then s.pendingRefreshMs
       else s.refreshMs) := by
  constructor
  · unfold ControlToggler.hasPendingStateChange
    cases h : s.lastKnownInstruction with
    | none => simp
    | some i => simp
  · rfl

/-- Claim C9: with an invalid signing key on the command auth context, both
setValue and update fail immediately with the invalid-credentials error,
issue no network call, leave the cached state unchanged and invoke no
notification. -/
theorem c9_invalid_credentials (s : TogglerState) (d : JSVal)
    (o : FetchOracle) (resp : UpdateResponses)
    (hauth : s.authSigningKeyValid = false) (_hd : d ≠ JSVal.undefined) :
    (ControlToggler.setValue s d o).result =
        .rejectedP "Valid credentials not configured" ∧
    (ControlToggler.setValue s d o).calls = [] ∧
    (ControlToggler.setValue s d o).finalState = s ∧
    (ControlToggler.setValue s d o).notifications = [] ∧
    (ControlToggler.update s resp).result =
        .rejectedP "Valid credentials not configured" ∧
    (ControlToggler.update s resp).calls = [] ∧
    (ControlToggler.update s resp).finalState = s ∧
    (ControlToggler.update s resp).notifications = [] := by
  simp [ControlToggler.setValue, ControlToggler.update, hauth]

/-- Claim C9, witness: a toggler with an invalid signing key rejects both
setValue of 1 and update with the invalid-credentials error and touches
nothing. -/
theorem c9_witness :
    (ControlToggler.setValue { baseState with authSigningKeyValid := false }
        (.num 1) okOracle).result =
        .rejectedP "Valid credentials not configured" ∧
    (ControlToggler.setValue { baseState with authSigningKeyValid := false }
        (.num 1) okOracle).calls = [] ∧
    (ControlToggler.setValue { baseState with authSigningKeyValid := false }
        (.num 1) okOracle).finalState =
      { baseState with authSigningKeyValid := false } ∧
    (ControlToggler.setValue { baseState with authSigningKeyValid := false }
        (.num 1) okOracle).notifications = [] ∧
    (ControlToggler.update { baseState with authSigningKeyValid := false }
        emptyOkResponses).result =
        .rejectedP "Valid credentials not configured" ∧
    (ControlToggler.update { baseState with authSigningKeyValid := false }
        emptyOkResponses).calls = [] ∧
    (ControlToggler.update { baseState with authSigningKeyValid := false }
        emptyOkResponses).finalState =
      { baseState with authSigningKeyValid := false } ∧
    (ControlToggler.update { baseState with authSigningKeyValid := false }
        emptyOkResponses).notifications = [] :=
  c9_invalid_credentials { baseState with authSigningKeyValid := false }
    (.num 1) okOracle emptyOkResponses rfl (by decide)

/-- Claim C6: a setValue call that triggers neither a cancel nor an
enqueue, because the cached value or the pending value loosely equals the
desired value, issues no network call, changes no cached state, schedules
no timer, invokes no notification and resolves with the existing last
known instruction. -/
theorem c6_fast_path (s : TogglerState) (d : JSVal) (o : FetchOracle)
    (hauth : s.authSigningKeyValid = true)
    (hcancel : ControlToggler.cancelTriggered s d = false)
    (hfast : looseEq (ControlToggler.value s) d = true ∨
      looseEq (ControlToggler.lastKnownInstructionValue s) d = true) :
    (ControlToggler.setValue s d o).calls = [] ∧
    (ControlToggler.setValue s d o).finalState = s ∧
    (ControlToggler.setValue s d o).notifications = [] ∧
    (ControlToggler.setValue s d o).timerScheduled = none ∧
    (ControlToggler.setValue s d o).result =
      .fulfilled s.lastKnownInstruction := by
  cases hlk : s.lastKnownInstruction with
  | none =>
    rcases hfast with h | h <;>
      simp [ControlToggler.setValue, hauth, hcancel, hlk, h]
  | some i =>
    rcases hfast with h | h <;>
      simp [ControlToggler.setValue, hauth, hcancel, hlk, h]

/-- Claim C6, witness: a repeated setValue of 1 while the cached command is
still Queued requesting 1 is a no-op resolving with that command. -/
theorem c6_witness :
    (ControlToggler.setValue c6State (.num 1) okOracle).calls = [] ∧
    (ControlToggler.setValue c6State (.num 1) okOracle).finalState = c6State ∧
    (ControlToggler.setValue c6State (.num 1) okOracle).notifications = [] ∧
    (ControlToggler.setValue c6State (.num 1) okOracle).timerScheduled = none ∧
    (ControlToggler.setValue c6State (.num 1) okOracle).result =
      .fulfilled (some queuedOneInstr) :=
  c6_fast_path c6State (.num 1) okOracle rfl (by decide) (Or.inr (by decide))

/-- Claim C5, counterexample: with the cached reading already loosely equal
to the desired value and a queued command requesting a different value,
setValue issues only the cancel call, not two calls. -/
theorem c5_counterexample :
    (ControlToggler.setValue c5State (.num 1) okOracle).calls =
      [.cancelInstruction 77 .Declined] ∧
    (ControlToggler.setValue c5State (.num 1) okOracle).calls.length ≠ 2 := by
  decide

/-- Claim C5, amended: when additionally the cached current value is not
loosely equal to the desired value and the cancel call fulfills, the
invocation issues exactly the cancel of the last known command followed by
the enqueue of a SetControlParameter command for the stringified desired
value, with the enqueue chained to run only after the cancel resolves. -/
theorem c5_cancel_then_enqueue_amended (s : TogglerState) (d : JSVal)
    (o : FetchOracle) (i : Instruction)
    (hauth : s.authSigningKeyValid = true) (hd : d ≠ JSVal.undefined)
    (hlk : s.lastKnownInstruction = some i)
    (hq : i.state = .Queued)
    (hpv : looseEq i.firstParamValue d = false)
    (hcv : looseEq (ControlToggler.value s) d = false)
    (hok : o.cancelResult = .ok ()) :
    (ControlToggler.setValue s d o).calls =
      [.cancelInstruction i.id .Declined,
       .queueInstruction s.nodeId s.controlId (jsToString d)] ∧
    (ControlToggler.setValue s d o).enqueueAfterCancel = true := by
  have hct : ControlToggler.cancelTriggered s d = true := by
    simp [ControlToggler.cancelTriggered, hlk, hq, hpv]
  have hu : looseEq JSVal.undefined d = false := looseEq_undef_left d hd
  cases he : o.enqueueResult with
  | ok instr =>
    simp [ControlToggler.setValue, hauth, hct, hlk, hcv, hu, hok, he,
      ControlToggler.enqueueSuccess, ControlToggler.enqueueCall]
    split <;> simp
  | error e =>
    simp [ControlToggler.setValue, hauth, hct, hlk, hcv, hu, hok, he,
      ControlToggler.enqueueCall]

/-- Claim C5, witness: setValue of 1 over a cached reading of 0 and a
queued command requesting 0 issues the cancel of command 77 and then the
chained enqueue for value 1. -/
theorem c5_witness :
    (ControlToggler.setValue c5WitnessState (.num 1) okOracle).calls =
      [.cancelInstruction baseInstr.id .Declined,
       .queueInstruction 123 "switch" (jsToString (.num 1))] ∧
    (ControlToggler.setValue c5WitnessState (.num 1) okOracle).enqueueAfterCancel =
      true :=
  c5_cancel_then_enqueue_amended c5WitnessState (.num 1) okOracle baseInstr
    rfl (by decide) rfl rfl (by decide) (by decide) rfl

/-- The rescheduling tail of update leaves the cached datum of the state it
is given unchanged. -/
theorem finishUpdate_lastKnownDatum (s1 : TogglerState) (calls : List NetCall)
    (notes : List (Option String)) :
    (ControlToggler.finishUpdate s1 calls notes).finalState.lastKnownDatum =
      s1.lastKnownDatum := by
  unfold ControlToggler.finishUpdate
  split <;> rfl

/-- Claim C1, counterexample: when the most-recent read of an update round
rejects, the error is delivered to the notification callback, but the
promise returned by update fulfills with undefined instead of rejecting
with that error. -/
theorem c1_counterexample :
    (ControlToggler.update baseState boomResponses).notifications =
      [some "boom"] ∧
    (ControlToggler.update baseState boomResponses).result =
      .fulfilled .undefined ∧
    (ControlToggler.update baseState boomResponses).result ≠
      .rejectedP "boom" := by
  decide

/-- Claim C1, amended: for every failure of a network call issued by
update, the rejection is delivered to the notification callback as its
first argument, but it is not propagated to the direct caller: the promise
returned by update fulfills with undefined, and the caches are left
unchanged. -/
theorem c1_update_error_amended (s : TogglerState) (resp : UpdateResponses)
    (e : String) (hauth : s.authSigningKeyValid = true)
    (herr : ControlToggler.updateRespError s resp = some e) :
    (ControlToggler.update s resp).notifications = [some e] ∧
    (ControlToggler.update s resp).result = .fulfilled .undefined ∧
    (ControlToggler.update s resp).finalState = s := by
  simp [ControlToggler.update, hauth, herr]

/-- Claim C1, witness: the amended behaviour at a concrete failing
round. -/
theorem c1_witness :
    (ControlToggler.update baseState boomResponses).notifications =
      [some "boom"] ∧
    (ControlToggler.update baseState boomResponses).result =
      .fulfilled .undefined ∧
    (ControlToggler.update baseState boomResponses).finalState = baseState :=
  c1_update_error_amended baseState boomResponses "boom" rfl rfl

/-- Claim C2, code evaluation at the failing input: with the poll timer
active and a failing network round, update notifies the error but schedules
no new poll timer, so the polling loop stops. -/
theorem c2_no_reschedule_on_error :
    (ControlToggler.update { baseState with timer := .active }
        boomResponses).notifications = [some "boom"] ∧
    (ControlToggler.update { baseState with timer := .active }
        boomResponses).timerScheduled = none ∧
    (ControlToggler.update { baseState with timer := .active }
        boomResponses).finalState.timer = .active := by
  decide

/-- Claim C3, code evaluation at the failing input: after start then stop
the timer handle is null, and an update that resolves successfully still
schedules a new poll timer at the refresh rate, resurrecting the stopped
loop. -/
theorem c3_timer_resurrected_after_stop :
    (ControlToggler.stop (ControlToggler.start baseState none).1).timer =
      .nullH ∧
    (ControlToggler.update
        (ControlToggler.stop (ControlToggler.start baseState none).1)
        emptyOkResponses).timerScheduled = some 20000 := by
  decide

/-- Claim C8, counterexample: an update round whose merged value is
undefined, with a fetched reading and no pending instruction, takes the
cache-update branch but leaves the stored reading value at its fetched
value instead of forcing it to the merged value. -/
theorem c8_counterexample :
    ControlToggler.updateNewValue c8State c8Responses = .undefined ∧
    (ControlToggler.update c8State c8Responses).notifications = [none] ∧
    (ControlToggler.update c8State c8Responses).finalState.lastKnownDatum =
      some { sourceId := "switch", date := some 10, val := .num 1 } ∧
    (ControlToggler.update c8State c8Responses).finalState.lastKnownDatum.map
        ControlDatum.val ≠
      some (ControlToggler.updateNewValue c8State c8Responses) := by
  decide

/-- Claim C8, amended: in a cache-updating round with a fetched reading and
no selected pending instruction, the stored reading value is forced to the
merged value exactly when that value is truthy; otherwise the fetched
reading is stored unchanged. -/
theorem c8_force_val_amended (s : TogglerState) (resp : UpdateResponses)
    (dd : ControlDatum)
    (hauth : s.authSigningKeyValid = true)
    (herr : ControlToggler.updateRespError s resp = none)
    (hdat : ControlToggler.updateFetchedDatum s resp = some dd)
    (hpend : ControlToggler.updatePendingInstr s resp = none)
    (hbranch : ControlToggler.updateNewValue s resp ≠ ControlToggler.value s ∨
      (ControlToggler.updateExecInstr s resp).isSome = true) :
    (ControlToggler.update s resp).finalState.lastKnownDatum =
      some (if truthy (ControlToggler.updateNewValue s resp) then
        { dd with val := ControlToggler.updateNewValue s resp } else dd) := by
  simp only [ControlToggler.update, hauth]
  rw [herr]
  simp only [ControlToggler.updateSuccess, hdat, hpend]
  rw [if_pos hbranch]
  rw [if_neg (by simp)]
  rw [finishUpdate_lastKnownDatum]
  simp only [true_and]
  split <;> rfl

/-- Claim C8, witness: a round whose merged value is the truthy string 1
forces the stored reading value to that merged value. -/
theorem c8_witness :
    (ControlToggler.update c8WitnessState
        c8WitnessResponses).finalState.lastKnownDatum =
      some { sourceId := "switch", date := some 10, val := .str "1" } := by
  have h := c8_force_val_amended c8WitnessState c8WitnessResponses
    { sourceId := "switch", date := some 10, val := .num 0 }
    rfl rfl (by decide) (by decide) (Or.inl (by decide))
  rw [h]
  decide
